import Mathlib

/-!
Verification development for the PostQode marketplace backend
(agent package storage, version registry, and the unified deployment
endpoints).  Each definition below is a shallow embedding of one Python
function of the repository; external effects (the filesystem, the Docker
daemon, clocks, UUID generation) are passed in explicitly as data, and
the database session is modelled as an explicit record of row lists.
-/

namespace Postqode

/-! ## String primitives

Python's `str.strip()`, code-point comparison and `str.split(".")` are
re-implemented structurally on the character list so that they reduce
inside the kernel; they agree with Python on every string that appears
here (ASCII, no exotic whitespace). -/

/-- Python `s.strip()`: drop leading and trailing whitespace. -/
def pyStrip (s : String) : String :=
  ⟨(((s.data.dropWhile Char.isWhitespace).reverse).dropWhile Char.isWhitespace).reverse⟩

/-- Code-point lexicographic comparison of character lists — the order
Python uses for `str` comparison (shorter prefixes sort first). -/
def charsLe : List Char → List Char → Bool
  | [], _ => true
  | _ :: _, [] => false
  | a :: as, b :: bs =>
      if a < b then true
      else if b < a then false
      else charsLe as bs

/-- Python `a <= b` on strings. -/
def pyStrLe (a b : String) : Bool := charsLe a.data b.data

/-- The descending string order used by `sorted(..., reverse=True)`. -/
def pyDesc (a b : String) : Prop := pyStrLe b a = true

instance : DecidableRel pyDesc := fun a b =>
  (inferInstance : Decidable (pyStrLe b a = true))

/-- Split a character list at `'.'` separators (accumulator holds the
current component, reversed). -/
def splitComponentsAux : List Char → List Char → List String
  | [], acc => [⟨acc.reverse⟩]
  | c :: cs, acc =>
      if c = '.' then ⟨acc.reverse⟩ :: splitComponentsAux cs []
      else splitComponentsAux cs (c :: acc)

/-- Python `s.split(".")`. -/
def splitDots (s : String) : List String := splitComponentsAux s.data []

/-- Parse a decimal digit string, `none` if empty or non-numeric. -/
def charsToNat? (l : List Char) : Option Nat :=
  if l.isEmpty then none
  else if l.all (fun c => c.isDigit) then
    some (l.foldl (fun n c => n * 10 + (c.toNat - 48)) 0)
  else none

/-! ## Enumerations (src/backend/app/models/enums.py, models/license.py) -/

/-- `DeploymentStatus` from `app/models/enums.py`. -/
inductive DeploymentStatus where
  | pending
  | active
  | stopped
  | error
  | updating
deriving DecidableEq, Repr

/-- `LicenseStatus` from `app/models/license.py`. -/
inductive LicenseStatus where
  | active
  | expired
  | cancelled
deriving DecidableEq, Repr

/-! ## Version registry rows (src/backend/app/models/agent_version.py) -/

/-- One `AgentVersion` row: the fields used by the version-tracking logic
in `app/api/api_v1/endpoints/packages.py`. -/
structure AgentVersionRow where
  agent_id : String
  version : String
  package_url : String
  package_checksum : String
  package_size_bytes : Nat
  is_latest : Bool
deriving DecidableEq, Repr

/-- Package fields recorded on an uploaded version (the slice of
`PackageInfo` that the version-tracking block writes into the row). -/
structure VersionUploadData where
  package_url : String
  package_checksum : String
  package_size_bytes : Nat
deriving DecidableEq, Repr

/-- Bulk `update({"is_latest": False})` over the rows of one agent. -/
def clearLatest (rows : List AgentVersionRow) (aid : String) : List AgentVersionRow :=
  rows.map fun r => if r.agent_id = aid then { r with is_latest := false } else r

/-- Overwrite the package fields of a row and flag it latest. -/
def setLatestData (data : VersionUploadData) (r : AgentVersionRow) : AgentVersionRow :=
  { r with package_url := data.package_url,
           package_checksum := data.package_checksum,
           package_size_bytes := data.package_size_bytes,
           is_latest := true }

/-- Update the *first* row matching `(aid, ver)` — SQLAlchemy's
`.first()` followed by attribute assignment. -/
def updateFirstRow (aid ver : String) (data : VersionUploadData) :
    List AgentVersionRow → List AgentVersionRow
  | [] => []
  | r :: rs =>
      if r.agent_id = aid && r.version = ver then setLatestData data r :: rs
      else r :: updateFirstRow aid ver data rs

/-- The version-tracking block shared by `upload_agent_package`
(`packages.py` lines 305-334) and `publish_agent_from_package`
(`packages.py` lines 143-168):

1. `db.query(AgentVersion).filter(agent_id == aid).update({"is_latest": False})`
2. look up the row with this `(agent_id, version)`;
3. if present, overwrite its package fields and set `is_latest = True`;
4. otherwise append a fresh row with `is_latest = True`. -/
def versionTrackingUpdate (rows : List AgentVersionRow) (aid ver : String)
    (data : VersionUploadData) : List AgentVersionRow :=
  let cleared := clearLatest rows aid
  match cleared.find? (fun r => r.agent_id = aid && r.version = ver) with
  | some _ => updateFirstRow aid ver data cleared
  | none =>
      cleared ++ [{ agent_id := aid, version := ver,
                    package_url := data.package_url,
                    package_checksum := data.package_checksum,
                    package_size_bytes := data.package_size_bytes,
                    is_latest := true }]

/-- Number of rows of agent `aid` that carry the `is_latest` flag. -/
def latestCount (rows : List AgentVersionRow) (aid : String) : Nat :=
  (rows.filter fun r => r.agent_id = aid && r.is_latest).length

/-- Whether agent `aid` has any version row at all. -/
def hasRow (rows : List AgentVersionRow) (aid : String) : Bool :=
  rows.any fun r => r.agent_id = aid

/-- The per-agent latest-flag invariant of the registry. -/
def latestInvariant (rows : List AgentVersionRow) : Prop :=
  ∀ aid : String, latestCount rows aid ≤ 1 ∧
    (latestCount rows aid = 1 ↔ hasRow rows aid = true)

/-- Applying a sequence of uploads, oldest first, to a row list. -/
def applyUploads (rows : List AgentVersionRow)
    (ops : List (String × String × VersionUploadData)) : List AgentVersionRow :=
  ops.foldl (fun s op => versionTrackingUpdate s op.1 op.2.1 op.2.2) rows

/-! ## Package storage (src/backend/app/services/package_storage.py)

The on-disk package tree `<root>/<agent_id>/<version>.zip` is modelled as
an association list keyed by `(agent_id, version)`; raw bytes are a
`List Nat`.  The SHA-256 function is injected as an argument (the Python
code calls `hashlib.sha256(...).hexdigest()`, a pure function of the
bytes), so every theorem about checksums holds for the real digest. -/

/-- Package bytes. -/
abbrev Bytes := List Nat

/-- The `<root>/<agent_id>/<version>.zip` tree: later writes shadow
earlier ones, mirroring file overwrite. -/
abbrev PackageStore := List ((String × String) × Bytes)

/-- `open(package_path, "wb").write(content)`: overwrite-or-create. -/
def storeWrite (fs : PackageStore) (aid ver : String) (content : Bytes) :
    PackageStore := ((aid, ver), content) :: fs.filter (fun e => e.1 ≠ (aid, ver))

/-- Read the bytes currently on disk at `<root>/<aid>/<ver>.zip`. -/
def storeRead (fs : PackageStore) (aid ver : String) : Option Bytes :=
  (fs.find? (fun e => e.1 = (aid, ver))).map (·.2)

/-- Presence of the required `metadata` keys of the manifest
(`_validate_manifest_structure` only tests key membership). -/
structure MetadataDoc where
  hasName : Bool
  hasVersion : Bool
deriving DecidableEq, Repr

/-- Presence of the required `spec` keys of the manifest. -/
structure SpecDoc where
  hasDisplayName : Bool
  hasDescription : Bool
deriving DecidableEq, Repr

/-- The slice of a parsed `agent.yaml` that
`_validate_manifest_structure` inspects: presence of the required keys
and the value of `kind`. -/
structure ManifestDoc where
  hasApiVersion : Bool
  kind : Option String
  metadata : Option MetadataDoc
  spec : Option SpecDoc
deriving DecidableEq, Repr

/-- The empty document `{}` that `_parse_manifest` returns when no
`agent.yaml` is found. -/
def ManifestDoc.empty : ManifestDoc :=
  { hasApiVersion := false, kind := none, metadata := none, spec := none }

/-- What `zipfile.ZipFile(...).extractall` + the `_parse_manifest` /
`_find_adapters` / `_find_manifest_path` helpers observe inside the
archive.  The booleans record directory presence checks made by
`validate_package`; `manifestParse` is the outcome of
`yaml.safe_load` on `agent.yaml` when the file exists. -/
structure ExtractResult where
  manifestFound : Bool
  manifestParse : Except String ManifestDoc
  hasAdaptersDir : Bool
  hasPoliciesDir : Bool
  adapters : List String
deriving Repr

/-- The scratch area `<root>/temp`: which temp files and extraction
directories currently exist. -/
structure TempState where
  files : List String
  dirs : List String
deriving DecidableEq, Repr

/-- Mirror of the dataclass `PackageInfo` in `package_storage.py`. -/
structure PackageInfo where
  url : String
  checksum : String
  size_bytes : Nat
  manifest : Option ManifestDoc
  adapters : List String
deriving Repr

/-- Mirror of the dataclass `ManifestValidation` in `package_storage.py`. -/
structure ManifestValidation where
  is_valid : Bool
  manifest : Option ManifestDoc
  errors : List String
  warnings : List String
deriving Repr

/-- `PackageStorageService.upload_package` (`package_storage.py` 48-102).
`hash` stands for `hashlib.sha256(...).hexdigest()`; `extract` is the
result of unzipping `content` (`none` models `zipfile.ZipFile` raising,
in which case the `finally` block still removes the scratch directory
and the exception propagates: the upload is not successful).
Returns the `PackageInfo`, the new package tree and the final scratch
state. -/
def upload_package (hash : Bytes → String) (fs : PackageStore) (ts : TempState)
    (aid ver : String) (content : Bytes)
    (extract : Option ExtractResult) :
    Except String PackageInfo × PackageStore × TempState :=
  let checksum := hash content
  -- the package file is written to <root>/<aid>/<ver>.zip before extraction
  let fs1 := storeWrite fs aid ver content
  -- temp_extract_dir is created by extractall; the finally block removes it
  -- on every path, so the scratch state is returned unchanged throughout
  match extract with
  | none =>
      -- ZipFile raised before/while extracting: the exception propagates to
      -- the caller, but the package file already sits on disk.
      (Except.error "BadZipFile", fs1, ts)
  | some ex =>
      match ex.manifestFound, ex.manifestParse with
      | true, Except.error e =>
          -- yaml.safe_load raised inside _parse_manifest: finally removes the
          -- scratch directory, the exception propagates.
          (Except.error e, fs1, ts)
      | true, Except.ok m =>
          (Except.ok { url := "/storage/packages/" ++ aid ++ "/" ++ ver ++ ".zip",
                       checksum := checksum,
                       size_bytes := content.length,
                       manifest := some m,
                       adapters := ex.adapters }, fs1, ts)
      | false, _ =>
          -- `_parse_manifest` returns {} when no agent.yaml is found
          (Except.ok { url := "/storage/packages/" ++ aid ++ "/" ++ ver ++ ".zip",
                       checksum := checksum,
                       size_bytes := content.length,
                       manifest := some ManifestDoc.empty,
                       adapters := ex.adapters }, fs1, ts)

/-- `PackageStorageService._validate_manifest_structure`
(`package_storage.py` 239-270): one error per missing required field,
in source order; `kind` must equal `"Agent"`. -/
def validate_manifest_structure (m : ManifestDoc) : List String :=
  (if ¬m.hasApiVersion then ["Missing required field: apiVersion"] else []) ++
  (match m.kind with
   | none => ["Missing required field: kind"]
   | some k => if k ≠ "Agent" then ["kind must be 'Agent'"] else []) ++
  (match m.metadata with
   | none => ["Missing required field: metadata"]
   | some md =>
      (if ¬md.hasName then ["Missing required field: metadata.name"] else []) ++
      (if ¬md.hasVersion then ["Missing required field: metadata.version"] else [])) ++
  (match m.spec with
   | none => ["Missing required field: spec"]
   | some sp =>
      (if ¬sp.hasDisplayName then ["Missing required field: spec.displayName"] else []) ++
      (if ¬sp.hasDescription then ["Missing required field: spec.description"] else []))

/-- `PackageStorageService.validate_package` (`package_storage.py`
128-196).  `tmpFileName` and `extractName` are the fresh `uuid4` names;
`isZip` is `zipfile.is_zipfile(temp_file)`; `ex` describes the archive
contents.  Returns the `ManifestValidation` together with the scratch
state left behind by the call (the `finally` block only unlinks the
temp *file*; the extraction *directory* is removed by an explicit
`shutil.rmtree` that only runs at the end of the happy path). -/
def validate_package (ts : TempState) (tmpFileName extractName : String)
    (isZip : Bool) (ex : ExtractResult) : ManifestValidation × TempState :=
  -- write temp file
  let ts1 : TempState := { ts with files := ts.files ++ [tmpFileName] }
  -- `finally: temp_file.unlink()`
  let unlinkTmp : TempState → TempState := fun s =>
    { s with files := s.files.filter (· ≠ tmpFileName) }
  if ¬isZip then
    ({ is_valid := false, manifest := none,
       errors := ["File is not a valid ZIP archive"], warnings := [] },
     unlinkTmp ts1)
  else
    -- extractall into temp_extract
    let ts2 : TempState := { ts1 with dirs := ts1.dirs ++ [extractName] }
    if ¬ex.manifestFound then
      ({ is_valid := false, manifest := none,
         errors := ["Package must contain agent.yaml in root directory"],
         warnings := [] },
       unlinkTmp ts2)
    else
      match ex.manifestParse with
      | Except.error e =>
          ({ is_valid := false, manifest := none,
             errors := ["Invalid YAML in agent.yaml: " ++ e], warnings := [] },
           unlinkTmp ts2)
      | Except.ok m =>
          let errors := validate_manifest_structure m
          let warnings :=
            (if ¬ex.hasAdaptersDir then
              ["No adapters directory found - agent may not be portable"] else []) ++
            (if ¬ex.hasPoliciesDir then
              ["No policies directory found - using default permissions"] else [])
          -- shutil.rmtree(temp_extract) runs on this path only
          let ts3 : TempState := { ts2 with dirs := ts2.dirs.filter (· ≠ extractName) }
          ({ is_valid := errors.isEmpty, manifest := some m,
             errors := errors, warnings := warnings },
           unlinkTmp ts3)

/-- The version strings whose `.zip` files sit in `<root>/<aid>/`
(the `agent_dir.glob("*.zip")` stems, in directory order). -/
def storedVersions (fs : PackageStore) (aid : String) : List String :=
  (fs.filter (fun e => e.1.1 = aid)).map (fun e => e.1.2)

/-- `PackageStorageService.list_versions` (`package_storage.py`
280-291): collect the `*.zip` stems of the agent's directory and return
`sorted(versions, reverse=True)` — a *plain string* sort, descending
(Python compares strings by code points, as `String.le` does). -/
def list_versions (fs : PackageStore) (aid : String) : List String :=
  List.insertionSort pyDesc (storedVersions fs aid)

/-- Modelled from the spec: the "dotted numeric components" of a
version string (§3 / §4.1), the key the spec orders `list_versions`
by.  For comparison with the code's plain string sort. -/
def versionComponents (v : String) : List Nat :=
  (splitDots v).map (fun s => (charsToNat? s.data).getD 0)

/-- Modelled from the spec: lexicographic "newer or equal" on dotted
numeric component lists. -/
def lexGE : List Nat → List Nat → Bool
  | _, [] => true
  | [], _ :: _ => false
  | a :: as, b :: bs =>
      if b < a then true
      else if a < b then false
      else lexGE as bs

/-- A version string made of dotted numeric components only. -/
def isDottedNumeric (v : String) : Bool :=
  (splitDots v).all (fun s => (charsToNat? s.data).isSome)

/-! ## Database rows for the deployment endpoints
(src/backend/app/models/{agent,license,agent_deployment}.py)

`AgentDeployment` is embedded with exactly the columns the model class
declares — in particular it has *no* `external_id` and no `access_url`
column.  `deployment_config` (a JSON dict with keys `env_vars` and
`port`) is split into its two fields. -/

/-- The slice of the `Agent` row read by the deployment endpoints. -/
structure AgentRec where
  id : String
  name : String
  price_cents : Nat
  version : String
  package_url : Option String := none
deriving DecidableEq, Repr

/-- The slice of the `License` row read by the deployment endpoints. -/
structure LicenseRec where
  id : String
  user_id : String
  agent_id : String
  status : LicenseStatus
deriving DecidableEq, Repr

/-- The `AgentDeployment` row (`app/models/agent_deployment.py` 10-56). -/
structure DeploymentRec where
  id : String
  license_id : String
  agent_id : String
  user_id : String
  deployment_type : String
  adapter_used : Option String := none
  env_vars : List (String × String) := []
  port : Nat := 8080
  status : DeploymentStatus
  error_message : Option String := none
  deployed_at : Nat
  last_health_check : Option Nat := none
  stopped_at : Option Nat := none
  total_invocations : Nat := 0
  last_invocation : Option Nat := none
deriving DecidableEq, Repr

/-- The database session state visible to the endpoints. -/
structure Db where
  agents : List AgentRec
  licenses : List LicenseRec
  deployments : List DeploymentRec
deriving Repr

def Db.findAgent (db : Db) (aid : String) : Option AgentRec :=
  db.agents.find? (fun a => a.id = aid)

/-- The license query of `unified_deploy` (agent, user, status ACTIVE). -/
def Db.findActiveLicense (db : Db) (aid uid : String) : Option LicenseRec :=
  db.licenses.find? (fun l =>
    l.agent_id = aid && l.user_id = uid && l.status = LicenseStatus.active)

def Db.findDeployment (db : Db) (did : String) : Option DeploymentRec :=
  db.deployments.find? (fun d => d.id = did)

/-- The deployment query of the per-user endpoints (id and user_id). -/
def Db.findUserDeployment (db : Db) (did uid : String) : Option DeploymentRec :=
  db.deployments.find? (fun d => d.id = did && d.user_id = uid)

/-- Patch the row with this id (`db.commit()` after field assignment). -/
def Db.updateDeployment (db : Db) (did : String)
    (f : DeploymentRec → DeploymentRec) : Db :=
  { db with deployments := db.deployments.map (fun d => if d.id = did then f d else d) }

/-- Python `dict` assignment `m[k] = v`. -/
def dictSet (m : List (String × String)) (k v : String) : List (String × String) :=
  if m.any (fun p => p.1 = k) then
    m.map (fun p => if p.1 = k then (k, v) else p)
  else m ++ [(k, v)]

/-! ## Local Docker runtime (src/backend/app/services/docker_runtime.py)

Subprocess outcomes are injected as a `DockerEnv` value: what the
`docker images -q`, `docker ps -q -f name=...`, `docker run` and
`docker stop` invocations would report at that moment. -/

/-- Docker daemon responses observed during one runtime call. -/
structure DockerEnv where
  imagesOut : String := ""
  psOut : String := ""
  runRc : Nat := 0
  runStdout : String := ""
  runStderr : String := ""
  stopRc : Nat := 0
  stopStderr : String := ""
deriving Repr

/-- The dict returned by `DockerRuntimeService.run_container`
(`docker_runtime.py` 158-227). -/
structure RunResult where
  success : Bool
  error : Option String := none
  container_id : Option String := none
  container_name : Option String := none
  port : Option Nat := none
deriving DecidableEq, Repr

/-- The deterministic container name `postqode-<agent_id>-<deployment_id[:8]>`
used throughout `docker_runtime.py` and `docker_deployer.py`. -/
def dockerContainerName (agent_id deployment_id : String) : String :=
  "postqode-" ++ agent_id ++ "-" ++ (deployment_id.take 8)

/-- `DockerRuntimeService.run_container`: refuse when the image is
missing or a container of the deterministic name is already running;
otherwise report the first 12 characters of `docker run`'s stdout as
the container id. -/
def run_container (env : DockerEnv) (deployment_id agent_id version : String)
    (_adapter : String) (_env_vars : List (String × String)) (port : Nat) :
    RunResult :=
  let image_name := "postqode-agent-" ++ agent_id ++ ":" ++ version
  let container_name := dockerContainerName agent_id deployment_id
  if pyStrip env.imagesOut = "" then
    { success := false,
      error := some ("Image " ++ image_name ++ " not found. Build it first.") }
  else if pyStrip env.psOut ≠ "" then
    { success := false,
      error := some ("Container " ++ container_name ++ " already running") }
  else if env.runRc ≠ 0 then
    { success := false, error := some env.runStderr }
  else
    { success := true,
      container_id := some ((pyStrip env.runStdout).take 12),
      container_name := some container_name,
      port := some port }

/-! ## Unified deploy endpoint
(src/backend/app/api/api_v1/endpoints/unified_deploy.py) -/

/-- Mirror of the Pydantic `UnifiedDeployRequest`. -/
structure UnifiedDeployRequest where
  agent_id : String
  adapter : String := "openai"
  deployment_type : String := "docker"
  environment_name : String := "production"
  port : Nat := 8080
  env_vars : List (String × String) := []
  auto_start : Bool := true
deriving Repr

/-- Mirror of the Pydantic `DeploymentStep` (timestamps elided). -/
structure StepRec where
  step : String
  status : String
  message : String
deriving DecidableEq, Repr

/-- Mirror of the Pydantic `UnifiedDeployResponse`. -/
structure UnifiedDeployResponse where
  deployment_id : String
  status : String
  steps : List StepRec
  container_url : Option String := none
  error : Option String := none
deriving DecidableEq, Repr

/-- Subprocess / storage outcomes observed by one `unified_deploy`
call: Docker availability, the `docker images -q` probe, whether
`get_package_path` finds the zip, and the result of
`build_image_from_package`. -/
structure UnifiedEnv where
  dockerAvailable : Bool := true
  imageCheckOut : String := ""
  packagePathExists : Bool := true
  buildSuccess : Bool := true
  buildError : String := ""
  docker : DockerEnv := {}
deriving Repr

/-- The `AgentDeployment` row inserted by step 3 of `unified_deploy`
(`unified_deploy.py` 473-489). -/
def newDeploymentRec (req : UnifiedDeployRequest)
    (user_id licenseId newDeploymentId : String) (now : Nat) : DeploymentRec :=
  { id := newDeploymentId, license_id := licenseId, agent_id := req.agent_id,
    user_id := user_id, deployment_type := req.deployment_type,
    adapter_used := some req.adapter, env_vars := req.env_vars,
    port := req.port, status := DeploymentStatus.pending, deployed_at := now }

/-- Step 6 of `unified_deploy` (`unified_deploy.py` 589-651): run the
container when `auto_start` was requested, else leave the row pending.
`db1` is the session state with the new row committed; `steps5` the
step events emitted so far. -/
def unified_deploy_run (db1 : Db) (env : UnifiedEnv) (req : UnifiedDeployRequest)
    (agent : AgentRec) (newDeploymentId : String) (steps5 : List StepRec) :
    Db × UnifiedDeployResponse :=
  if req.auto_start then
    let env_vars :=
      dictSet (dictSet (dictSet req.env_vars "POSTQODE_ADAPTER" req.adapter)
                "POSTQODE_DEPLOYMENT_ID" newDeploymentId)
        "POSTQODE_AGENT_ID" req.agent_id
    let rr := run_container env.docker newDeploymentId req.agent_id agent.version
                req.adapter env_vars req.port
    if ¬rr.success then
      (db1.updateDeployment newDeploymentId (fun d =>
         { d with status := DeploymentStatus.error,
                  error_message := some ((rr.error).getD "Failed to start container") }),
       { deployment_id := newDeploymentId, status := "failed",
         steps := steps5 ++
           [⟨"run_container", "failed",
             "Failed to start: " ++ ((rr.error).getD "Unknown error").take 100⟩],
         error := some ((rr.error).getD "Failed to start container") })
    else
      let container_url := "http://localhost:" ++ toString req.port
      (db1.updateDeployment newDeploymentId (fun d =>
         { d with status := DeploymentStatus.active, error_message := none }),
       { deployment_id := newDeploymentId, status := "active",
         steps := steps5 ++
           [⟨"run_container", "completed", "Container running at " ++ container_url⟩],
         container_url := some container_url })
  else
    (db1.updateDeployment newDeploymentId (fun d =>
       { d with status := DeploymentStatus.pending }),
     { deployment_id := newDeploymentId, status := "pending", steps := steps5 })

/-- Steps 3-6 of `unified_deploy` (`unified_deploy.py` 465-651), entered
once the agent is validated and a license id is at hand: create the
deployment row, check Docker, ensure the image, and (when `auto_start`)
run the container.  `steps12` carries the step events already emitted. -/
def unified_deploy_rest (db : Db) (env : UnifiedEnv) (req : UnifiedDeployRequest)
    (agent : AgentRec) (user_id licenseId newDeploymentId : String) (now : Nat)
    (steps12 : List StepRec) : Db × UnifiedDeployResponse :=
  -- Step 3: create deployment record (status PENDING), commit
  let db1 : Db := { db with deployments :=
    db.deployments ++ [newDeploymentRec req user_id licenseId newDeploymentId now] }
  let steps3 := steps12 ++ [⟨"create_deployment", "completed", "Deployment record created"⟩]
  -- Step 4: Docker availability
  if ¬env.dockerAvailable then
    (db1.updateDeployment newDeploymentId (fun d =>
       { d with status := DeploymentStatus.error,
                error_message := some "Docker is not running or not installed" }),
     { deployment_id := newDeploymentId, status := "failed",
       steps := steps3 ++ [⟨"check_docker", "failed", "Docker is not available"⟩],
       error := some "Docker is not available. Please start Docker and try again." })
  else
  let steps4 := steps3 ++ [⟨"check_docker", "completed", "Docker is available"⟩]
  -- Step 5: build image unless `docker images -q` already reports one
  let image_name := "postqode-agent-" ++ req.agent_id ++ ":" ++ agent.version
  if pyStrip env.imageCheckOut = "" then
    if agent.package_url = none then
      (db1.updateDeployment newDeploymentId (fun d =>
         { d with status := DeploymentStatus.error,
                  error_message := some "Agent package not found" }),
       { deployment_id := newDeploymentId, status := "failed",
         steps := steps4 ++ [⟨"build_image", "failed", "No package available to build"⟩],
         error := some "Agent package not available" })
    else if ¬env.packagePathExists then
      (db1.updateDeployment newDeploymentId (fun d =>
         { d with status := DeploymentStatus.error,
                  error_message := some "Package file not found" }),
       { deployment_id := newDeploymentId, status := "failed",
         steps := steps4 ++ [⟨"build_image", "failed", "Package file not found"⟩],
         error := some "Package file not found" })
    else if ¬env.buildSuccess then
      (db1.updateDeployment newDeploymentId (fun d =>
         { d with status := DeploymentStatus.error,
                  error_message := some env.buildError }),
       { deployment_id := newDeploymentId, status := "failed",
         steps := steps4 ++
           [⟨"build_image", "failed", "Build failed: " ++ env.buildError.take 100⟩],
         error := some env.buildError })
    else
      unified_deploy_run db1 env req agent newDeploymentId
        (steps4 ++ [⟨"build_image", "completed", "Image built: " ++ image_name⟩])
  else
    unified_deploy_run db1 env req agent newDeploymentId
      (steps4 ++ [⟨"build_image", "completed", "Image already exists: " ++ image_name⟩])

/-- `unified_deploy` (`unified_deploy.py` 385-651).  `newLicenseId` and
`newDeploymentId` stand for the row ids the database would mint; `now`
is the clock.  Returns the committed session state and the response. -/
def unified_deploy (db : Db) (env : UnifiedEnv) (req : UnifiedDeployRequest)
    (user_id newLicenseId newDeploymentId : String) (now : Nat) :
    Db × UnifiedDeployResponse :=
  -- Step 1: validate agent
  match db.findAgent req.agent_id with
  | none =>
      (db, { deployment_id := "", status := "failed",
             steps := [⟨"validate_agent", "failed", "Agent not found"⟩],
             error := some "Agent not found" })
  | some agent =>
    let step1 : StepRec :=
      ⟨"validate_agent", "completed", "Agent '" ++ agent.name ++ "' validated"⟩
    -- Step 2: check / create license
    match db.findActiveLicense req.agent_id user_id with
    | some lic =>
        unified_deploy_rest db env req agent user_id lic.id newDeploymentId now
          [step1, ⟨"check_license", "completed", "License verified"⟩]
    | none =>
        if agent.price_cents = 0 then
          -- auto-create a free ACTIVE license; its message is then
          -- overwritten by the shared "License verified" assignment
          let db1 : Db := { db with licenses := db.licenses ++
            [{ id := newLicenseId, user_id := user_id,
               agent_id := req.agent_id, status := LicenseStatus.active }] }
          unified_deploy_rest db1 env req agent user_id newLicenseId newDeploymentId now
            [step1, ⟨"check_license", "completed", "License verified"⟩]
        else
          (db, { deployment_id := "", status := "failed",
                 steps := [step1, ⟨"check_license", "failed", "Valid license required"⟩],
                 error := some "Please purchase a license first" })

/-! ## Quick actions and health intake
(`unified_deploy.py` 658-789, `deployments.py` 218-249) -/

/-- An `HTTPException(status_code, detail)`. -/
structure HttpError where
  status_code : Nat
  detail : String
deriving DecidableEq, Repr

/-- Response body of `start_deployment`. -/
structure StartResponse where
  message : String
  container_url : String
  container_id : Option String
deriving DecidableEq, Repr

/-- `start_deployment` (`unified_deploy.py` 658-711): re-run the
container from the saved config; on runtime failure patch the row to
`error` and raise 500; on success patch to `active`, refresh
`deployed_at`, clear `error_message`. -/
def start_deployment (db : Db) (env : UnifiedEnv) (did uid : String)
    (now : Nat) : Db × Except HttpError StartResponse :=
  match db.findUserDeployment did uid with
  | none => (db, Except.error ⟨404, "Deployment not found"⟩)
  | some dep =>
    match db.findAgent dep.agent_id with
    | none => (db, Except.error ⟨404, "Agent not found"⟩)
    | some agent =>
      if ¬env.dockerAvailable then
        (db, Except.error ⟨503, "Docker is not available"⟩)
      else
        let rr := run_container env.docker did dep.agent_id agent.version
                    (dep.adapter_used.getD "openai") dep.env_vars dep.port
        if ¬rr.success then
          (db.updateDeployment did (fun d =>
             { d with status := DeploymentStatus.error, error_message := rr.error }),
           Except.error ⟨500, (rr.error).getD ""⟩)
        else
          (db.updateDeployment did (fun d =>
             { d with status := DeploymentStatus.active, deployed_at := now,
                      error_message := none }),
           Except.ok { message := "Container started",
                       container_url := "http://localhost:" ++ toString dep.port,
                       container_id := rr.container_id })

/-- `stop_deployment` (`unified_deploy.py` 714-739): call
`runtime.stop_container` (its result is discarded) and unconditionally
patch the row to `stopped` with `stopped_at = now` — no check of the
current state. -/
def stop_deployment (db : Db) (_env : DockerEnv) (did uid : String)
    (now : Nat) : Db × Except HttpError String :=
  match db.findUserDeployment did uid with
  | none => (db, Except.error ⟨404, "Deployment not found"⟩)
  | some _ =>
      (db.updateDeployment did (fun d =>
         { d with status := DeploymentStatus.stopped, stopped_at := some now }),
       Except.ok "Container stopped")

/-- `reconfigure_deployment` (`unified_deploy.py` 742-789): overwrite
`deployment_config["env_vars"]`, commit; when `restart` is requested
and the row is currently `active`, stop the container and re-run it,
patching to `error` on failure. -/
def reconfigure_deployment (db : Db) (env : UnifiedEnv) (did uid : String)
    (new_env_vars : List (String × String)) (restart : Bool) (_now : Nat) :
    Db × Except HttpError String :=
  match db.findUserDeployment did uid with
  | none => (db, Except.error ⟨404, "Deployment not found"⟩)
  | some dep =>
    let db1 := db.updateDeployment did (fun d => { d with env_vars := new_env_vars })
    if restart && dep.status = DeploymentStatus.active then
      match db1.findAgent dep.agent_id with
      | none =>
          -- the source dereferences `agent.version` without a None check;
          -- the raised AttributeError surfaces as a 500 after the config
          -- commit, with no status change
          (db1, Except.error ⟨500, "Internal Server Error"⟩)
      | some agent =>
        let rr := run_container env.docker did dep.agent_id agent.version
                    (dep.adapter_used.getD "openai") new_env_vars dep.port
        if ¬rr.success then
          (db1.updateDeployment did (fun d =>
             { d with status := DeploymentStatus.error, error_message := rr.error }),
           Except.error ⟨500, (rr.error).getD ""⟩)
        else
          (db1, Except.ok "Configuration updated")
    else
      (db1, Except.ok "Configuration updated")

/-- Mirror of the Pydantic `DeploymentHealthUpdate`. -/
structure HealthUpdate where
  total_invocations : Option Nat := none
  last_invocation : Option Nat := none
deriving Repr

/-- `health_check` (`deployments.py` 218-249): 404 for an unknown id;
otherwise set `last_health_check := now`, assign the optional counters
*absolutely*, and promote `pending` to `active` — no other transition. -/
def health_check (db : Db) (did : String) (hd : HealthUpdate) (now : Nat) :
    Db × Except HttpError String :=
  match db.findDeployment did with
  | none => (db, Except.error ⟨404, "Deployment not found"⟩)
  | some _ =>
      (db.updateDeployment did (fun d =>
         { d with last_health_check := some now,
                  total_invocations :=
                    match hd.total_invocations with
                    | some n => n
                    | none => d.total_invocations,
                  last_invocation :=
                    match hd.last_invocation with
                    | some t => some t
                    | none => d.last_invocation,
                  status :=
                    if d.status = DeploymentStatus.pending then
                      DeploymentStatus.active
                    else d.status }),
       Except.ok "Health check recorded")

/-! ## Docker deployer (src/backend/app/services/deployers/docker_deployer.py) -/

/-- Mirror of the dataclass `DeployConfig` (`deployers/base.py` 24-33),
restricted to the fields the Docker deployer reads. -/
structure DeployConfig where
  agent_id : String
  agent_name : String
  version : String
  adapter : String := "openai"
  env_vars : List (String × String) := []
  port : Nat := 8080
  environment_name : String := "production"
deriving Repr

/-- Mirror of the dataclass `BuildResult` (`deployers/base.py` 79-87). -/
structure BuildResult where
  success : Bool
  image_name : Option String := none
  image_tag : Option String := none
  error : Option String := none
deriving Repr

/-- Mirror of the dataclass `DeployResult` (`deployers/base.py` 91-100);
`duration_seconds` and logs elided. -/
structure DeployResult where
  success : Bool
  deployment_id : String
  external_id : Option String := none
  access_url : Option String := none
  endpoints : List (String × String) := []
  error : Option String := none
deriving DecidableEq, Repr

/-- `DockerDeployer.deploy` (`docker_deployer.py` 178-251).  Besides the
`DeployResult` it returns the argv of the `docker run` command it
issued (empty when no run was attempted), so that the container *name*
the code chooses is part of the observable behaviour.  `external_id`
is the first 12 characters of the stdout that `docker run` printed —
the daemon-assigned container id, not the deterministic name. -/
def DockerDeployer.deploy (env : DockerEnv) (marketplace_url : String)
    (deployment_id : String) (config : DeployConfig)
    (build_result : BuildResult) : DeployResult × List String :=
  if ¬build_result.success then
    ({ success := false, deployment_id := deployment_id,
       error := some "Cannot deploy without successful build" }, [])
  else
    let container_name := dockerContainerName config.agent_id deployment_id
    let env_args :=
      (config.env_vars.map (fun p => ["-e", p.1 ++ "=" ++ p.2])).flatten ++
      ["-e", "POSTQODE_DEPLOYMENT_ID=" ++ deployment_id,
       "-e", "POSTQODE_AGENT_ID=" ++ config.agent_id,
       "-e", "POSTQODE_ADAPTER=" ++ config.adapter,
       "-e", "POSTQODE_MARKETPLACE_URL=" ++ marketplace_url]
    let runArgv :=
      ["run", "-d", "--name", container_name,
       "-p", toString config.port ++ ":8080",
       "--add-host", "host.docker.internal:host-gateway"] ++
      env_args ++ [(build_result.image_tag).getD ""]
    if env.runRc ≠ 0 then
      ({ success := false, deployment_id := deployment_id,
         error := some env.runStderr }, runArgv)
    else
      let container_id := (pyStrip env.runStdout).take 12
      let access_url := "http://localhost:" ++ toString config.port
      ({ success := true, deployment_id := deployment_id,
         external_id := some container_id,
         access_url := some access_url,
         endpoints := [("web", access_url), ("health", access_url ++ "/health"),
                       ("invoke", access_url ++ "/invoke")] }, runArgv)

/-! ## Public operations on deployments, as one transition system
(for the lifecycle claims).  Each constructor carries the request data
*and* the subprocess outcomes observed during that call. -/

/-- One public operation of the deployment API. -/
inductive PublicOp where
  | deployOp (env : UnifiedEnv) (req : UnifiedDeployRequest)
      (user_id newLicenseId newDeploymentId : String) (now : Nat)
  | startOp (env : UnifiedEnv) (did uid : String) (now : Nat)
  | stopOp (env : DockerEnv) (did uid : String) (now : Nat)
  | reconfigureOp (env : UnifiedEnv) (did uid : String)
      (new_env_vars : List (String × String)) (restart : Bool) (now : Nat)
  | pingOp (did : String) (hd : HealthUpdate) (now : Nat)

/-- Database effect of one public operation. -/
def stepOp (db : Db) : PublicOp → Db
  | PublicOp.deployOp env req uid lid did now =>
      (unified_deploy db env req uid lid did now).1
  | PublicOp.startOp env did uid now => (start_deployment db env did uid now).1
  | PublicOp.stopOp env did uid now => (stop_deployment db env did uid now).1
  | PublicOp.reconfigureOp env did uid nev r now =>
      (reconfigure_deployment db env did uid nev r now).1
  | PublicOp.pingOp did hd now => (health_check db did hd now).1

/-- State after a sequence of public operations. -/
def dbAfter (init : Db) (ops : List PublicOp) : Db := ops.foldl stepOp init

/-- Observed state of one deployment row. -/
def statusOf (db : Db) (did : String) : Option DeploymentStatus :=
  (db.findDeployment did).map (fun d => d.status)

/-! ## The spec's view of a Deployment (for the record-field claims)

The spec (§3) ascribes `external_id` and `access_url` attributes to the
Deployment entity.  The source model `AgentDeployment` declares no such
columns, so the view of a stored row exposes them as `none`. -/

/-- Deployment attributes named by the spec: state, error message,
external id, access URL.  The projection below is determined by the
source schema. -/
structure SpecDeploymentView where
  state : DeploymentStatus
  error_message : Option String
  external_id : Option String
  access_url : Option String
deriving DecidableEq, Repr

/-- Project a persisted `AgentDeployment` row onto the spec's
attribute set.  `external_id` and `access_url` are `none` because
`app/models/agent_deployment.py` has no such columns. -/
def DeploymentRec.specView (d : DeploymentRec) : SpecDeploymentView :=
  { state := d.status, error_message := d.error_message,
    external_id := none, access_url := none }

/-! ## Concrete fixtures for evaluating the endpoints -/

/-- A published free agent with a cached image and package. -/
def demoAgent : AgentRec :=
  { id := "a1", name := "Hello", price_cents := 0, version := "1.0.0",
    package_url := some "/storage/packages/a1/1.0.0.zip" }

/-- A paid agent (2500 cents) of the same publisher. -/
def demoPaidAgent : AgentRec :=
  { id := "a2", name := "Paid", price_cents := 2500, version := "1.0.0",
    package_url := some "/storage/packages/a2/1.0.0.zip" }

/-- An active license of user `u1` for agent `a1` only. -/
def demoLicense : LicenseRec :=
  { id := "l1", user_id := "u1", agent_id := "a1", status := LicenseStatus.active }

/-- Session state: two agents, one license, no deployments. -/
def demoDb : Db :=
  { agents := [demoAgent, demoPaidAgent], licenses := [demoLicense],
    deployments := [] }

/-- A healthy runtime: Docker up, image cached, container run succeeds. -/
def demoEnv : UnifiedEnv :=
  { dockerAvailable := true, imageCheckOut := "abc123", packagePathExists := true,
    buildSuccess := true, buildError := "",
    docker := { imagesOut := "abc123", psOut := "", runRc := 0,
                runStdout := "0123456789abcdef", runStderr := "" } }

/-- A deploy request for the free agent with the default settings. -/
def demoReq : UnifiedDeployRequest := { agent_id := "a1" }

/-- An already-active deployment row of `u1` for agent `a1`. -/
def demoActiveDeployment : DeploymentRec :=
  { id := "d1", license_id := "l1", agent_id := "a1", user_id := "u1",
    deployment_type := "docker", adapter_used := some "openai",
    env_vars := [], port := 8080, status := DeploymentStatus.active,
    deployed_at := 0 }

/-- Session state with the active deployment present. -/
def demoDbActive : Db :=
  { agents := [demoAgent, demoPaidAgent], licenses := [demoLicense],
    deployments := [demoActiveDeployment] }

/-- A runtime where the image exists but the deterministically named
container is already running (`docker ps -q -f name=...` non-empty). -/
def demoEnvBusy : UnifiedEnv :=
  { dockerAvailable := true, imageCheckOut := "abc123", packagePathExists := true,
    buildSuccess := true, buildError := "",
    docker := { imagesOut := "abc123", psOut := "cafebabe", runRc := 0,
                runStdout := "", runStderr := "" } }

/-! ## Helper lemmas -/

/-- `find?`-by-id commutes with an id-preserving per-row patch. -/
lemma find_update_of_id (l : List DeploymentRec) (did : String)
    (f : DeploymentRec → DeploymentRec) (hf : ∀ d, (f d).id = d.id) :
    (l.map (fun d => if d.id = did then f d else d)).find? (fun d => d.id = did)
      = (l.find? (fun d => d.id = did)).map f := by
  induction l with
  | nil => rfl
  | cons d rest ih =>
    by_cases h : d.id = did
    · simp [List.find?, h, hf]
    · simp [List.find?, h, ih]

/-- `Db.findDeployment` after `Db.updateDeployment` at the same id. -/
lemma findDeployment_update (db : Db) (did : String)
    (f : DeploymentRec → DeploymentRec) (hf : ∀ d, (f d).id = d.id) :
    (db.updateDeployment did f).findDeployment did
      = (db.findDeployment did).map f :=
  find_update_of_id db.deployments did f hf

/-- A row findable by `(id, user)` is findable by id alone. -/
lemma findDeployment_isSome_of_user (db : Db) (did uid : String)
    (h : (db.findUserDeployment did uid).isSome) :
    (db.findDeployment did).isSome := by
  simp only [Db.findUserDeployment, List.find?_isSome] at h
  simp only [Db.findDeployment, List.find?_isSome]
  obtain ⟨x, hx, hp⟩ := h
  simp only [Bool.and_eq_true, decide_eq_true_eq] at hp
  exact ⟨x, hx, by simp [hp.1]⟩

/-! ## Claim C8: health ping semantics -/

/-- One `health_check` call on an existing deployment: the patched row. -/
lemma health_check_found (db : Db) (did : String) (hd : HealthUpdate) (now : Nat)
    (dep : DeploymentRec) (hfound : db.findDeployment did = some dep) :
    (health_check db did hd now).2 = Except.ok "Health check recorded" ∧
    (health_check db did hd now).1.findDeployment did = some
      { dep with
        last_health_check := some now,
        total_invocations := (match hd.total_invocations with
          | some n => n | none => dep.total_invocations),
        last_invocation := (match hd.last_invocation with
          | some t => some t | none => dep.last_invocation),
        status := (if dep.status = DeploymentStatus.pending then DeploymentStatus.active
          else dep.status) } := by
  constructor
  · simp [health_check, hfound]
  · simp only [health_check, hfound]
    rw [findDeployment_update]
    · rw [hfound]; rfl
    · intro d; rfl

/-- C8.  `record_ping` assigns `total_invocations` absolutely (two
successive pings with the same `N` leave the counter at `N`), stamps
`last_health_check` with the current time, promotes a `pending`
deployment to `active`, changes the state in no other case, and answers
404 for an unknown deployment id. -/
theorem C8_health_ping_semantics :
    ∀ (db : Db) (did : String) (hd : HealthUpdate) (now : Nat),
      (db.findDeployment did = none →
        health_check db did hd now = (db, Except.error ⟨404, "Deployment not found"⟩)) ∧
      (∀ dep, db.findDeployment did = some dep →
        (health_check db did hd now).2 = Except.ok "Health check recorded" ∧
        ∃ d', (health_check db did hd now).1.findDeployment did = some d' ∧
          d'.last_health_check = some now ∧
          (∀ n, hd.total_invocations = some n → d'.total_invocations = n) ∧
          (hd.total_invocations = none → d'.total_invocations = dep.total_invocations) ∧
          (dep.status = DeploymentStatus.pending → d'.status = DeploymentStatus.active) ∧
          (dep.status ≠ DeploymentStatus.pending → d'.status = dep.status)) ∧
      (∀ dep n (now2 : Nat), db.findDeployment did = some dep →
        ((health_check (health_check db did
            { total_invocations := some n, last_invocation := hd.last_invocation } now).1
            did { total_invocations := some n, last_invocation := hd.last_invocation }
            now2).1.findDeployment did).map (fun d => d.total_invocations) = some n) := by
  intro db did hd now
  refine ⟨?_, ?_, ?_⟩
  · intro hnone
    simp [health_check, hnone]
  · intro dep hfound
    refine ⟨(health_check_found db did hd now dep hfound).1, ?_⟩
    refine ⟨_, (health_check_found db did hd now dep hfound).2, rfl, ?_, ?_, ?_, ?_⟩
    · intro n hn; simp [hn]
    · intro hn; simp [hn]
    · intro hp; simp [hp]
    · intro hp; simp [hp]
  · intro dep n now2 hfound
    have h1 := (health_check_found db did
      { total_invocations := some n, last_invocation := hd.last_invocation } now dep hfound).2
    have h2 := (health_check_found _ did
      { total_invocations := some n, last_invocation := hd.last_invocation } now2 _ h1).2
    rw [h2]
    rfl

/-- Witness for C8 at a concrete database. -/
theorem C8_health_ping_semantics_witness :
    ((health_check (health_check
        { agents := [], licenses := [],
          deployments := [{ id := "d1", license_id := "l1", agent_id := "a1",
                            user_id := "u1", deployment_type := "docker",
                            status := DeploymentStatus.pending, deployed_at := 0 }] }
        "d1" { total_invocations := some 7, last_invocation := none } 5).1
        "d1" { total_invocations := some 7, last_invocation := none } 6).1.findDeployment
        "d1").map (fun d => d.total_invocations) = some 7 :=
  (C8_health_ping_semantics _ "d1" { total_invocations := some 7, last_invocation := none } 5).2.2
    { id := "d1", license_id := "l1", agent_id := "a1", user_id := "u1",
      deployment_type := "docker", status := DeploymentStatus.pending, deployed_at := 0 }
    7 6 (by rfl)

/-! ## Claim C9: scratch-directory lifetime of validate_package -/

/-- C9.  The claim says every `validate_package` / `upload_package` call
removes the temporary extraction directory it created on every path.
Evaluating the code: on the missing-`agent.yaml` path and on the
YAML-parse-error path the extraction directory survives the call (only
the temp *file* is unlinked by the `finally` block), while the non-ZIP
path and the happy path do clean up — so the code leaks the scratch
directory on two error paths. -/
theorem C9_validate_scratch_leak :
    (validate_package { files := [], dirs := [] } "t.zip" "x1" true
        { manifestFound := false, manifestParse := Except.error "",
          hasAdaptersDir := false, hasPoliciesDir := false, adapters := [] }).2
      = { files := [], dirs := ["x1"] } ∧
    (validate_package { files := [], dirs := [] } "t.zip" "x2" true
        { manifestFound := true, manifestParse := Except.error "bad yaml",
          hasAdaptersDir := false, hasPoliciesDir := false, adapters := [] }).2
      = { files := [], dirs := ["x2"] } ∧
    (validate_package { files := [], dirs := [] } "t.zip" "x3" false
        { manifestFound := false, manifestParse := Except.error "",
          hasAdaptersDir := false, hasPoliciesDir := false, adapters := [] }).2
      = { files := [], dirs := [] } ∧
    (validate_package { files := [], dirs := [] } "t.zip" "x4" true
        { manifestFound := true,
          manifestParse := Except.ok
            { hasApiVersion := true, kind := some "Agent",
              metadata := some { hasName := true, hasVersion := true },
              spec := some { hasDisplayName := true, hasDescription := true } },
          hasAdaptersDir := true, hasPoliciesDir := true, adapters := [] }).2
      = { files := [], dirs := [] } := by
  refine ⟨?_, ?_, ?_, ?_⟩ <;> decide

/-! ## Claim C3: upload integrity -/

/-- Reading back the file just written. -/
lemma storeRead_storeWrite (fs : PackageStore) (aid ver : String) (content : Bytes) :
    storeRead (storeWrite fs aid ver content) aid ver = some content := by
  simp [storeRead, storeWrite, List.find?]

/-- C3.  Every successful `upload_package(agent_id, version, bytes,
filename)` returns a record whose `checksum` is the injected SHA-256
digest of `bytes` and whose `size_bytes` is `len(bytes)`, and leaves
exactly `bytes` on disk at `<root>/<agent_id>/<version>.zip` — hence
the hash of the bytes on disk equals the recorded checksum. -/
theorem C3_upload_package_integrity :
    ∀ (hash : Bytes → String) (fs : PackageStore) (ts : TempState)
      (aid ver : String) (content : Bytes) (extract : Option ExtractResult)
      (info : PackageInfo),
      (upload_package hash fs ts aid ver content extract).1 = Except.ok info →
      info.checksum = hash content ∧
      info.size_bytes = content.length ∧
      storeRead (upload_package hash fs ts aid ver content extract).2.1 aid ver
        = some content ∧
      (storeRead (upload_package hash fs ts aid ver content extract).2.1 aid
          ver).map hash = some info.checksum := by
  intro hash fs ts aid ver content extract info h
  cases extract with
  | none => exact absurd h (by simp [upload_package])
  | some ex =>
    cases hex : ex.manifestFound with
    | false =>
      simp only [upload_package, hex] at h ⊢
      injection h with h2
      subst h2
      exact ⟨rfl, rfl, storeRead_storeWrite fs aid ver content,
        by rw [storeRead_storeWrite]; rfl⟩
    | true =>
      cases hp : ex.manifestParse with
      | error e => simp [upload_package, hex, hp] at h
      | ok m =>
        simp only [upload_package, hex, hp] at h ⊢
        injection h with h2
        subst h2
        exact ⟨rfl, rfl, storeRead_storeWrite fs aid ver content,
          by rw [storeRead_storeWrite]; rfl⟩

/-- Witness for C3 at a concrete upload. -/
theorem C3_upload_package_integrity_witness :
    (fun b : Bytes => toString b.length) [10, 20, 30] = "3" ∧
    ((upload_package (fun b => toString b.length) [] { files := [], dirs := [] }
        "a1" "1.0.0" [10, 20, 30]
        (some { manifestFound := false, manifestParse := Except.error "",
                hasAdaptersDir := false, hasPoliciesDir := false,
                adapters := [] })).1 =
      Except.ok { url := "/storage/packages/a1/1.0.0.zip", checksum := "3",
                  size_bytes := 3, manifest := some ManifestDoc.empty,
                  adapters := [] }) ∧
    storeRead ((upload_package (fun b => toString b.length) []
        { files := [], dirs := [] } "a1" "1.0.0" [10, 20, 30]
        (some { manifestFound := false, manifestParse := Except.error "",
                hasAdaptersDir := false, hasPoliciesDir := false,
                adapters := [] })).2.1) "a1" "1.0.0" = some [10, 20, 30] :=
  ⟨rfl, rfl,
    (C3_upload_package_integrity (fun b => toString b.length) [] ⟨[], []⟩
      "a1" "1.0.0" [10, 20, 30]
      (some { manifestFound := false, manifestParse := Except.error "",
              hasAdaptersDir := false, hasPoliciesDir := false,
              adapters := [] })
      _ rfl).2.2.1⟩

/-! ## Claim C5: list_versions ordering -/

lemma charsLe_total : ∀ x y : List Char, charsLe x y = true ∨ charsLe y x = true := by
  intro x
  induction x with
  | nil => intro y; left; rfl
  | cons a as ih =>
    intro y
    cases y with
    | nil => right; rfl
    | cons b bs =>
      rcases lt_trichotomy a b with h | h | h
      · left; simp [charsLe, h]
      · subst h
        rcases ih bs with h2 | h2
        · left; simp [charsLe, lt_irrefl, h2]
        · right; simp [charsLe, lt_irrefl, h2]
      · right; simp [charsLe, h]

lemma charsLe_trans : ∀ x y z : List Char,
    charsLe x y = true → charsLe y z = true → charsLe x z = true := by
  intro x
  induction x with
  | nil => intro y z h1 h2; rfl
  | cons a as ih =>
    intro y z h1 h2
    cases y with
    | nil => simp [charsLe] at h1
    | cons b bs =>
      cases z with
      | nil => simp [charsLe] at h2
      | cons c cs =>
        rcases lt_trichotomy a b with hab | hab | hab
        · rcases lt_trichotomy b c with hbc | hbc | hbc
          · simp [charsLe, lt_trans hab hbc]
          · subst hbc; simp [charsLe, hab]
          · simp [charsLe, hbc, asymm hbc] at h2
        · subst hab
          rcases lt_trichotomy a c with hbc | hbc | hbc
          · simp [charsLe, hbc]
          · subst hbc
            simp only [charsLe, lt_irrefl, if_false] at h1 h2 ⊢
            exact ih bs cs h1 h2
          · simp [charsLe, hbc, asymm hbc] at h2
        · simp [charsLe, hab, asymm hab] at h1

instance : IsTotal String pyDesc :=
  ⟨fun a b => (charsLe_total b.data a.data).imp id id⟩

instance : IsTrans String pyDesc :=
  ⟨fun _ b _ h1 h2 => charsLe_trans _ b.data _ h2 h1⟩

/-- C5 counterexample.  The claim — for dotted numeric versions,
`list_versions` is ordered newest first by numeric components (so
"1.10.0" before "1.9.0") — is false: the code sorts *strings*
descending, which places "1.9.0" before "1.10.0". -/
theorem C5_counterexample_numeric_order :
    ¬ (∀ (fs : PackageStore) (aid : String),
        (∀ v ∈ storedVersions fs aid, isDottedNumeric v = true) →
        List.Sorted (fun a b => lexGE (versionComponents a) (versionComponents b) = true)
          (list_versions fs aid)) := by
  intro h
  have hs := h [(("a", "1.9.0"), []), (("a", "1.10.0"), [])] "a" (by decide)
  have heq : list_versions [(("a", "1.9.0"), []), (("a", "1.10.0"), [])] "a"
      = ["1.9.0", "1.10.0"] := by decide
  rw [heq] at hs
  have hrel := (List.sorted_cons.mp hs).1 "1.10.0" (by simp)
  exact absurd hrel (by decide)

/-- C5 amended.  `list_versions` returns a permutation of the stored
version strings, sorted newest-first by *plain string* (code-point)
comparison — `sorted(versions, reverse=True)` — not by dotted numeric
components; e.g. "1.9.0" is listed before "1.10.0". -/
theorem C5_list_versions_string_descending :
    ∀ (fs : PackageStore) (aid : String),
      List.Sorted pyDesc (list_versions fs aid) ∧
      (list_versions fs aid).Perm (storedVersions fs aid) ∧
      list_versions [(("a", "1.9.0"), []), (("a", "1.10.0"), [])] "a"
        = ["1.9.0", "1.10.0"] := by
  intro fs aid
  exact ⟨List.sorted_insertionSort pyDesc _, List.perm_insertionSort pyDesc _, by decide⟩

/-! ## Claim C2: the is_latest invariant of the version registry -/

lemma latestCount_cons_pos {r : AgentVersionRow} {rs : List AgentVersionRow}
    {a : String} (h : (r.agent_id = a && r.is_latest) = true) :
    latestCount (r :: rs) a = latestCount rs a + 1 := by
  simp [latestCount, List.filter_cons, h]

lemma latestCount_cons_neg {r : AgentVersionRow} {rs : List AgentVersionRow}
    {a : String} (h : ¬ (r.agent_id = a && r.is_latest) = true) :
    latestCount (r :: rs) a = latestCount rs a := by
  simp [latestCount, List.filter_cons, h]

lemma latestCount_clearLatest (rows : List AgentVersionRow) (aid : String) :
    latestCount (clearLatest rows aid) aid = 0 := by
  induction rows with
  | nil => rfl
  | cons r rs ih =>
    by_cases h : r.agent_id = aid <;>
      simp [clearLatest, latestCount, List.filter, h] at ih ⊢ <;> exact ih

lemma latestCount_append (xs ys : List AgentVersionRow) (a : String) :
    latestCount (xs ++ ys) a = latestCount xs a + latestCount ys a := by
  simp [latestCount, List.filter_append]

lemma filter_clearLatest_other (rows : List AgentVersionRow) (aid b : String)
    (hb : b ≠ aid) :
    (clearLatest rows aid).filter (fun r => r.agent_id = b && r.is_latest)
      = rows.filter (fun r => r.agent_id = b && r.is_latest) := by
  induction rows with
  | nil => rfl
  | cons r rs ih =>
    by_cases h : r.agent_id = aid
    · have hab : ¬ aid = b := fun hc => hb hc.symm
      simp [clearLatest, List.filter, h, hab] at ih ⊢
      exact ih
    · simp only [clearLatest, List.map_cons, if_neg h] at ih ⊢
      simp [List.filter, ih]

lemma filter_updateFirstRow_other (l : List AgentVersionRow)
    (aid ver : String) (data : VersionUploadData) (b : String) (hb : b ≠ aid) :
    (updateFirstRow aid ver data l).filter (fun r => r.agent_id = b && r.is_latest)
      = l.filter (fun r => r.agent_id = b && r.is_latest) := by
  induction l with
  | nil => rfl
  | cons r rs ih =>
    by_cases h : (r.agent_id = aid ∧ r.version = ver)
    · have hab : ¬ aid = b := fun hc => hb hc.symm
      simp [updateFirstRow, h.1, h.2, setLatestData, List.filter, hab]
    · have hcond : ¬ (r.agent_id = aid && r.version = ver) = true := by
        simp only [Bool.and_eq_true, decide_eq_true_eq]; exact h
      simp only [updateFirstRow, if_neg hcond]
      simp [List.filter, ih]

lemma hasRow_clearLatest (rows : List AgentVersionRow) (aid b : String) :
    hasRow (clearLatest rows aid) b = hasRow rows b := by
  induction rows with
  | nil => rfl
  | cons r rs ih =>
    by_cases h : r.agent_id = aid <;>
      simp [clearLatest, hasRow, List.any_cons, h] at ih ⊢ <;> rw [ih]

lemma hasRow_updateFirstRow (l : List AgentVersionRow)
    (aid ver : String) (data : VersionUploadData) (b : String) :
    hasRow (updateFirstRow aid ver data l) b = hasRow l b := by
  induction l with
  | nil => rfl
  | cons r rs ih =>
    by_cases h : (r.agent_id = aid ∧ r.version = ver)
    · simp [updateFirstRow, h.1, h.2, setLatestData, hasRow, List.any_cons]
    · have hcond : ¬ (r.agent_id = aid && r.version = ver) = true := by
        simp only [Bool.and_eq_true, decide_eq_true_eq]; exact h
      simp only [updateFirstRow, if_neg hcond]
      simp [hasRow, List.any_cons] at ih ⊢
      rw [ih]

lemma latestCount_updateFirstRow (l : List AgentVersionRow)
    (aid ver : String) (data : VersionUploadData)
    (h0 : latestCount l aid = 0)
    (hf : (l.find? (fun r => r.agent_id = aid && r.version = ver)).isSome) :
    latestCount (updateFirstRow aid ver data l) aid = 1 := by
  induction l with
  | nil => simp [List.find?] at hf
  | cons r rs ih =>
    have hnl : ¬ (r.agent_id = aid && r.is_latest) = true := by
      intro hc
      rw [latestCount_cons_pos hc] at h0
      simp at h0
    have h0' : latestCount rs aid = 0 := by
      rwa [latestCount_cons_neg hnl] at h0
    by_cases h : (r.agent_id = aid ∧ r.version = ver)
    · have hcondT : (r.agent_id = aid && r.version = ver) = true := by
        simp only [Bool.and_eq_true, decide_eq_true_eq]; exact h
      simp only [updateFirstRow, if_pos hcondT]
      rw [latestCount_cons_pos (by simp [setLatestData, h.1]), h0']
    · have hcond : ¬ (r.agent_id = aid && r.version = ver) = true := by
        simp only [Bool.and_eq_true, decide_eq_true_eq]; exact h
      have hf' : (rs.find? (fun r => r.agent_id = aid && r.version = ver)).isSome := by
        simp only [List.find?_cons, Bool.not_eq_true] at hcond hf
        rw [hcond] at hf
        exact hf
      simp only [updateFirstRow, if_neg hcond]
      rw [latestCount_cons_neg hnl]
      exact ih h0' hf'

lemma hasRow_of_latestCount_ne (l : List AgentVersionRow) (a : String)
    (h : latestCount l a ≠ 0) : hasRow l a = true := by
  induction l with
  | nil => simp [latestCount] at h
  | cons r rs ih =>
    by_cases hr : r.agent_id = a
    · simp [hasRow, List.any_cons, hr]
    · have hlat : ¬ (r.agent_id = a && r.is_latest) = true := by simp [hr]
      have h2 : latestCount rs a ≠ 0 := by
        rwa [latestCount_cons_neg hlat] at h
      have h3 := ih h2
      simp only [hasRow, List.any_cons, Bool.or_eq_true] at h3 ⊢
      exact Or.inr h3

/-- After one upload, the uploaded agent has exactly one latest row. -/
lemma latestCount_update_self (rows : List AgentVersionRow) (aid ver : String)
    (data : VersionUploadData) :
    latestCount (versionTrackingUpdate rows aid ver data) aid = 1 := by
  simp only [versionTrackingUpdate]
  cases hf : (clearLatest rows aid).find? (fun r => r.agent_id = aid && r.version = ver) with
  | some r0 =>
      exact latestCount_updateFirstRow _ aid ver data
        (latestCount_clearLatest rows aid) (by rw [hf]; rfl)
  | none =>
      rw [latestCount_append, latestCount_clearLatest]
      simp [latestCount, List.filter]

/-- Rows of other agents are untouched by an upload. -/
lemma latestCount_update_other (rows : List AgentVersionRow) (aid ver : String)
    (data : VersionUploadData) (b : String) (hb : b ≠ aid) :
    latestCount (versionTrackingUpdate rows aid ver data) b = latestCount rows b := by
  simp only [versionTrackingUpdate]
  cases hf : (clearLatest rows aid).find? (fun r => r.agent_id = aid && r.version = ver) with
  | some r0 =>
      simp only [latestCount, filter_updateFirstRow_other _ aid ver data b hb,
        filter_clearLatest_other rows aid b hb]
  | none =>
      rw [latestCount_append]
      have hone : latestCount
          [{ agent_id := aid,
             version := ver,
             package_url := data.package_url,
             package_checksum := data.package_checksum,
             package_size_bytes := data.package_size_bytes,
             is_latest := true }] b = 0 := by
        have : ¬ (aid = b) := fun hc => hb hc.symm
        simp [latestCount, List.filter, this]
      rw [hone, Nat.add_zero]
      simp only [latestCount, filter_clearLatest_other rows aid b hb]

lemma hasRow_update_other (rows : List AgentVersionRow) (aid ver : String)
    (data : VersionUploadData) (b : String) (hb : b ≠ aid) :
    hasRow (versionTrackingUpdate rows aid ver data) b = hasRow rows b := by
  simp only [versionTrackingUpdate]
  cases hf : (clearLatest rows aid).find? (fun r => r.agent_id = aid && r.version = ver) with
  | some r0 => rw [hasRow_updateFirstRow, hasRow_clearLatest]
  | none =>
      have h1 := hasRow_clearLatest rows aid b
      simp only [hasRow] at h1
      simp only [hasRow, List.any_append, List.any_cons, List.any_nil, h1]
      have : ¬ (aid = b) := fun hc => hb hc.symm
      simp [this]

/-- One upload establishes the invariant for its agent and preserves it
for every other agent. -/
lemma latestInvariant_update (rows : List AgentVersionRow) (aid ver : String)
    (data : VersionUploadData) (h : latestInvariant rows) :
    latestInvariant (versionTrackingUpdate rows aid ver data) := by
  intro b
  by_cases hb : b = aid
  · subst hb
    rw [latestCount_update_self]
    refine ⟨le_rfl, ?_⟩
    have := hasRow_of_latestCount_ne (versionTrackingUpdate rows b ver data) b
      (by rw [latestCount_update_self]; omega)
    simp [this]
  · rw [latestCount_update_other rows aid ver data b hb,
        hasRow_update_other rows aid ver data b hb]
    exact h b

lemma latestInvariant_nil : latestInvariant [] := by
  intro a
  refine ⟨by simp [latestCount], ?_⟩
  simp [latestCount, hasRow]

lemma latestInvariant_applyUploads
    (ops : List (String × String × VersionUploadData))
    (rows : List AgentVersionRow) (h : latestInvariant rows) :
    latestInvariant (applyUploads rows ops) := by
  induction ops generalizing rows with
  | nil => exact h
  | cons op rest ih =>
      exact ih _ (latestInvariant_update rows op.1 op.2.1 op.2.2 h)

/-- Rows surviving an upload that belong to the uploaded agent but to a
different version have lost the flag. -/
lemma mem_clearLatest_not_latest (rows : List AgentVersionRow) (aid : String)
    (r : AgentVersionRow) (hr : r ∈ clearLatest rows aid)
    (ha : r.agent_id = aid) : r.is_latest = false := by
  induction rows with
  | nil => simp [clearLatest] at hr
  | cons x xs ih =>
    simp only [clearLatest, List.map_cons, List.mem_cons] at hr
    rcases hr with hr | hr
    · by_cases hx : x.agent_id = aid
      · rw [if_pos hx] at hr; rw [hr]
      · rw [if_neg hx] at hr; subst hr; exact absurd ha hx
    · exact ih hr

lemma mem_updateFirstRow (l : List AgentVersionRow) (aid ver : String)
    (data : VersionUploadData) (r : AgentVersionRow)
    (hr : r ∈ updateFirstRow aid ver data l) :
    r ∈ l ∨ (r.agent_id = aid ∧ r.version = ver ∧ r.is_latest = true) := by
  induction l with
  | nil => simp [updateFirstRow] at hr
  | cons x xs ih =>
    by_cases h : (x.agent_id = aid ∧ x.version = ver)
    · have hcondT : (x.agent_id = aid && x.version = ver) = true := by
        simp only [Bool.and_eq_true, decide_eq_true_eq]; exact h
      simp only [updateFirstRow, if_pos hcondT, List.mem_cons] at hr
      rcases hr with hr | hr
      · right; subst hr; exact ⟨h.1, h.2, rfl⟩
      · left; exact List.mem_cons_of_mem x hr
    · have hcondF : ¬ (x.agent_id = aid && x.version = ver) = true := by
        simp only [Bool.and_eq_true, decide_eq_true_eq]; exact h
      simp only [updateFirstRow, if_neg hcondF, List.mem_cons] at hr
      rcases hr with hr | hr
      · left; subst hr; exact List.mem_cons_self _ _
      · rcases ih hr with h2 | h2
        · left; exact List.mem_cons_of_mem x h2
        · right; exact h2

lemma setLatest_mem_updateFirstRow (l : List AgentVersionRow) (aid ver : String)
    (data : VersionUploadData) (r0 : AgentVersionRow)
    (hf : l.find? (fun r => r.agent_id = aid && r.version = ver) = some r0) :
    setLatestData data r0 ∈ updateFirstRow aid ver data l := by
  induction l with
  | nil => simp [List.find?] at hf
  | cons x xs ih =>
    by_cases h : (x.agent_id = aid && x.version = ver) = true
    · rw [List.find?_cons, h] at hf
      injection hf with hf
      subst hf
      simp only [updateFirstRow, if_pos h]
      exact List.mem_cons_self _ _
    · have hfalse : (x.agent_id = aid && x.version = ver) = false := by
        simpa using h
      rw [List.find?_cons, hfalse] at hf
      simp only [updateFirstRow, if_neg h]
      exact List.mem_cons_of_mem x (ih hf)

/-- C2.  (i) Starting from an empty registry, after any sequence of
package uploads each agent has at most one `is_latest` row, and exactly
one iff it has any row at all; (ii) after an upload, every other
version row of the same agent has `is_latest = false`; (iii) the
uploaded `(agent, version)` row exists and carries the flag. -/
theorem C2_is_latest_invariant :
    (∀ (ops : List (String × String × VersionUploadData)) (aid : String),
      latestCount (applyUploads [] ops) aid ≤ 1 ∧
      (latestCount (applyUploads [] ops) aid = 1 ↔ hasRow (applyUploads [] ops) aid = true)) ∧
    (∀ (rows : List AgentVersionRow) (aid ver : String) (data : VersionUploadData)
       (r : AgentVersionRow), r ∈ versionTrackingUpdate rows aid ver data →
       r.agent_id = aid → r.version ≠ ver → r.is_latest = false) ∧
    (∀ (rows : List AgentVersionRow) (aid ver : String) (data : VersionUploadData),
       ∃ r, r ∈ versionTrackingUpdate rows aid ver data ∧
         r.agent_id = aid ∧ r.version = ver ∧ r.is_latest = true) := by
  refine ⟨?_, ?_, ?_⟩
  · intro ops aid
    exact latestInvariant_applyUploads ops [] latestInvariant_nil aid
  · intro rows aid ver data r hr ha hv
    simp only [versionTrackingUpdate] at hr
    rcases hfind : (clearLatest rows aid).find?
        (fun r => r.agent_id = aid && r.version = ver) with _ | r0
    · rw [hfind] at hr
      simp only [List.mem_append, List.mem_singleton] at hr
      rcases hr with hr | hr
      · exact mem_clearLatest_not_latest rows aid r hr ha
      · subst hr; exact absurd rfl hv
    · rw [hfind] at hr
      rcases mem_updateFirstRow _ aid ver data r hr with h2 | h2
      · exact mem_clearLatest_not_latest rows aid r h2 ha
      · exact absurd h2.2.1 hv
  · intro rows aid ver data
    simp only [versionTrackingUpdate]
    rcases hfind : (clearLatest rows aid).find?
        (fun r => r.agent_id = aid && r.version = ver) with _ | r0
    · refine ⟨{ agent_id := aid, version := ver,
                package_url := data.package_url,
                package_checksum := data.package_checksum,
                package_size_bytes := data.package_size_bytes,
                is_latest := true }, ?_, rfl, rfl, rfl⟩
      rw [hfind]
      simp
    · have hp := List.find?_some hfind
      simp only [Bool.and_eq_true, decide_eq_true_eq] at hp
      refine ⟨setLatestData data r0, ?_, hp.1, hp.2, rfl⟩
      rw [hfind]
      exact setLatest_mem_updateFirstRow _ aid ver data r0 hfind

/-! ## Claims C1 and C6: the unified deploy pipeline -/

/-- The freshly inserted row is findable. -/
lemma findDeployment_isSome_insert (db : Db) (req : UnifiedDeployRequest)
    (uid lid did : String) (now : Nat) :
    ((Db.mk db.agents db.licenses
        (db.deployments ++ [newDeploymentRec req uid lid did now])).findDeployment
      did).isSome := by
  simp only [Db.findDeployment, List.find?_isSome]
  exact ⟨newDeploymentRec req uid lid did now, by simp, by simp [newDeploymentRec]⟩

/-- Behaviour of the run step (step 6): response/record agreement. -/
lemma run_spec (db1 : Db) (env : UnifiedEnv) (req : UnifiedDeployRequest)
    (agent : AgentRec) (did : String) (steps5 : List StepRec)
    (hrow : (db1.findDeployment did).isSome) :
    (unified_deploy_run db1 env req agent did steps5).2.deployment_id = did ∧
    (unified_deploy_run db1 env req agent did steps5).1.licenses = db1.licenses ∧
    (∀ s ∈ steps5, s ∈ (unified_deploy_run db1 env req agent did steps5).2.steps) ∧
    ((unified_deploy_run db1 env req agent did steps5).2.status = "active" →
      (∃ d, (unified_deploy_run db1 env req agent did steps5).1.findDeployment did
          = some d ∧ d.status = DeploymentStatus.active ∧ d.error_message = none) ∧
      (unified_deploy_run db1 env req agent did steps5).2.container_url
        = some ("http://localhost:" ++ toString req.port)) ∧
    ((∀ m, StepRec.mk "run_container" "failed" m ∉ steps5) →
      (∃ m, StepRec.mk "run_container" "failed" m ∈
        (unified_deploy_run db1 env req agent did steps5).2.steps) →
      ∃ d, (unified_deploy_run db1 env req agent did steps5).1.findDeployment did
        = some d ∧ d.status = DeploymentStatus.error) := by
  obtain ⟨d0, hd0⟩ := Option.isSome_iff_exists.mp hrow
  unfold unified_deploy_run
  dsimp only
  split
  · -- auto_start = true
    split
    · -- run failed
      refine ⟨rfl, rfl, ?_, ?_, ?_⟩
      · intro s hs; simp [hs]
      · intro h; simp at h
      · intro _ _
        rw [findDeployment_update]
        · rw [hd0]
          exact ⟨_, rfl, rfl⟩
        · intro d; rfl
    · -- run succeeded
      refine ⟨rfl, rfl, ?_, ?_, ?_⟩
      · intro s hs; simp [hs]
      · intro _
        refine ⟨?_, rfl⟩
        rw [findDeployment_update]
        · rw [hd0]
          exact ⟨_, rfl, rfl, rfl⟩
        · intro d; rfl
      · intro hnot hex
        obtain ⟨m, hm⟩ := hex
        simp only [List.mem_append, List.mem_singleton] at hm
        rcases hm with hm | hm
        · exact absurd hm (hnot m)
        · simp [StepRec.mk.injEq] at hm
  · -- auto_start = false: stays pending
    refine ⟨rfl, rfl, ?_, ?_, ?_⟩
    · intro s hs; exact hs
    · intro h; simp at h
    · intro hnot hex
      obtain ⟨m, hm⟩ := hex
      exact absurd hm (hnot m)

/-- Behaviour of steps 3-6 given the step events emitted so far. -/
lemma rest_spec (db : Db) (env : UnifiedEnv) (req : UnifiedDeployRequest)
    (agent : AgentRec) (uid lid did : String) (now : Nat) (steps12 : List StepRec) :
    (unified_deploy_rest db env req agent uid lid did now steps12).2.deployment_id = did ∧
    (unified_deploy_rest db env req agent uid lid did now steps12).1.licenses = db.licenses ∧
    (∀ s ∈ steps12, s ∈ (unified_deploy_rest db env req agent uid lid did now steps12).2.steps) ∧
    ((unified_deploy_rest db env req agent uid lid did now steps12).2.status = "active" →
      (∃ d, (unified_deploy_rest db env req agent uid lid did now steps12).1.findDeployment did
          = some d ∧ d.status = DeploymentStatus.active ∧ d.error_message = none) ∧
      (unified_deploy_rest db env req agent uid lid did now steps12).2.container_url
        = some ("http://localhost:" ++ toString req.port)) ∧
    ((∀ m, StepRec.mk "run_container" "failed" m ∉ steps12) →
      (∃ m, StepRec.mk "run_container" "failed" m ∈
        (unified_deploy_rest db env req agent uid lid did now steps12).2.steps) →
      ∃ d, (unified_deploy_rest db env req agent uid lid did now steps12).1.findDeployment did
        = some d ∧ d.status = DeploymentStatus.error) := by
  have hrow := findDeployment_isSome_insert db req uid lid did now
  obtain ⟨d0, hd0⟩ := Option.isSome_iff_exists.mp hrow
  unfold unified_deploy_rest
  dsimp only
  split
  · -- Docker unavailable
    refine ⟨rfl, rfl, ?_, ?_, ?_⟩
    · intro s hs; simp [hs]
    · intro h; simp at h
    · intro hnot hex
      obtain ⟨m, hm⟩ := hex
      simp only [List.mem_append, List.mem_singleton] at hm
      rcases hm with (hm | hm) | hm
      · exact absurd hm (hnot m)
      · simp [StepRec.mk.injEq] at hm
      · simp [StepRec.mk.injEq] at hm
  · split
    · -- image must be built
      split
      · -- no package_url
        refine ⟨rfl, rfl, ?_, ?_, ?_⟩
        · intro s hs; simp [hs]
        · intro h; simp at h
        · intro hnot hex
          obtain ⟨m, hm⟩ := hex
          simp only [List.mem_append, List.mem_singleton] at hm
          rcases hm with ((hm | hm) | hm) | hm
          · exact absurd hm (hnot m)
          · simp [StepRec.mk.injEq] at hm
          · simp [StepRec.mk.injEq] at hm
          · simp [StepRec.mk.injEq] at hm
      · split
        · -- package file absent
          refine ⟨rfl, rfl, ?_, ?_, ?_⟩
          · intro s hs; simp [hs]
          · intro h; simp at h
          · intro hnot hex
            obtain ⟨m, hm⟩ := hex
            simp only [List.mem_append, List.mem_singleton] at hm
            rcases hm with ((hm | hm) | hm) | hm
            · exact absurd hm (hnot m)
            · simp [StepRec.mk.injEq] at hm
            · simp [StepRec.mk.injEq] at hm
            · simp [StepRec.mk.injEq] at hm
        · split
          · -- build failed
            refine ⟨rfl, rfl, ?_, ?_, ?_⟩
            · intro s hs; simp [hs]
            · intro h; simp at h
            · intro hnot hex
              obtain ⟨m, hm⟩ := hex
              simp only [List.mem_append, List.mem_singleton] at hm
              rcases hm with ((hm | hm) | hm) | hm
              · exact absurd hm (hnot m)
              · simp [StepRec.mk.injEq] at hm
              · simp [StepRec.mk.injEq] at hm
              · simp [StepRec.mk.injEq] at hm
          · -- image built: delegate to the run step
            have h := run_spec
              (Db.mk db.agents db.licenses
                (db.deployments ++ [newDeploymentRec req uid lid did now]))
              env req agent did
              (((steps12 ++ [⟨"create_deployment", "completed", "Deployment record created"⟩])
                  ++ [⟨"check_docker", "completed", "Docker is available"⟩])
                ++ [⟨"build_image", "completed",
                     "Image built: " ++ ("postqode-agent-" ++ req.agent_id ++ ":" ++ agent.version)⟩])
              hrow
            refine ⟨h.1, h.2.1, ?_, h.2.2.2.1, ?_⟩
            · intro s hs
              exact h.2.2.1 s (by simp [hs])
            · intro hnot
              refine h.2.2.2.2 ?_
              intro m hm
              simp only [List.mem_append, List.mem_singleton] at hm
              rcases hm with ((hm | hm) | hm) | hm
              · exact absurd hm (hnot m)
              · simp [StepRec.mk.injEq] at hm
              · simp [StepRec.mk.injEq] at hm
              · simp [StepRec.mk.injEq] at hm
    · -- image already present: delegate to the run step
      have h := run_spec
        (Db.mk db.agents db.licenses
          (db.deployments ++ [newDeploymentRec req uid lid did now]))
        env req agent did
        (((steps12 ++ [⟨"create_deployment", "completed", "Deployment record created"⟩])
            ++ [⟨"check_docker", "completed", "Docker is available"⟩])
          ++ [⟨"build_image", "completed",
               "Image already exists: " ++ ("postqode-agent-" ++ req.agent_id ++ ":" ++ agent.version)⟩])
        hrow
      refine ⟨h.1, h.2.1, ?_, h.2.2.2.1, ?_⟩
      · intro s hs
        exact h.2.2.1 s (by simp [hs])
      · intro hnot
        refine h.2.2.2.2 ?_
        intro m hm
        simp only [List.mem_append, List.mem_singleton] at hm
        rcases hm with ((hm | hm) | hm) | hm
        · exact absurd hm (hnot m)
        · simp [StepRec.mk.injEq] at hm
        · simp [StepRec.mk.injEq] at hm
        · simp [StepRec.mk.injEq] at hm

/-- Witness for C2 at a concrete upload history. -/
theorem C2_is_latest_invariant_witness :
    ∃ r, r ∈ versionTrackingUpdate
        [{ agent_id := "a1", version := "1.0.0", package_url := "u",
           package_checksum := "c", package_size_bytes := 1, is_latest := true }]
        "a1" "1.0.1" { package_url := "u2", package_checksum := "c2",
                       package_size_bytes := 2 } ∧
      r.agent_id = "a1" ∧ r.version = "1.0.1" ∧ r.is_latest = true :=
  C2_is_latest_invariant.2.2
    [{ agent_id := "a1", version := "1.0.0", package_url := "u",
       package_checksum := "c", package_size_bytes := 1, is_latest := true }]
    "a1" "1.0.1"
    { package_url := "u2", package_checksum := "c2", package_size_bytes := 2 }

/-- C1 counterexample.  The claim asks that after a successful deploy
the *persisted record*'s `external_id` and `access_url` be non-empty;
but the `AgentDeployment` model has no such columns, so the spec view
of the stored row always carries `none` there, even on a fully
successful `auto_start` deploy. -/
theorem C1_counterexample_no_external_id :
    ¬ (∀ (db : Db) (env : UnifiedEnv) (req : UnifiedDeployRequest)
         (uid lid did : String) (now : Nat),
        req.auto_start = true →
        (unified_deploy db env req uid lid did now).2.status = "active" →
        ∃ d, (unified_deploy db env req uid lid did now).1.findDeployment
            (unified_deploy db env req uid lid did now).2.deployment_id = some d ∧
          d.specView.state = DeploymentStatus.active ∧
          d.specView.error_message = none ∧
          (∃ s, d.specView.external_id = some s ∧ s ≠ "") ∧
          (∃ s, d.specView.access_url = some s ∧ s ≠ "")) := by
  intro h
  obtain ⟨d, -, -, -, hext, -⟩ := h demoDb demoEnv demoReq "u1" "l2" "d1" 0 rfl (by decide)
  obtain ⟨s, hs, -⟩ := hext
  simp [DeploymentRec.specView] at hs

/-- C1 (amended).  For every pipeline deploy call: when the deploy step
succeeds (the response reports `active`, which happens only on the
`auto_start` run path), the persisted row is patched to `active` with
`error_message` cleared, and the access URL `http://localhost:<port>`
is returned in the response (the row itself stores no external_id or
access_url — the model has no such columns); when the deploy step fails
(a `run_container` step event with status `failed` is emitted), the row
is patched to `error`. -/
theorem C1_deploy_patches_record :
    ∀ (db : Db) (env : UnifiedEnv) (req : UnifiedDeployRequest)
      (uid lid did : String) (now : Nat),
      ((unified_deploy db env req uid lid did now).2.status = "active" →
        (∃ d, (unified_deploy db env req uid lid did now).1.findDeployment
            (unified_deploy db env req uid lid did now).2.deployment_id = some d ∧
          d.status = DeploymentStatus.active ∧ d.error_message = none) ∧
        (unified_deploy db env req uid lid did now).2.container_url
          = some ("http://localhost:" ++ toString req.port)) ∧
      ((∃ m, StepRec.mk "run_container" "failed" m ∈
          (unified_deploy db env req uid lid did now).2.steps) →
        ∃ d, (unified_deploy db env req uid lid did now).1.findDeployment
            (unified_deploy db env req uid lid did now).2.deployment_id = some d ∧
          d.status = DeploymentStatus.error) := by
  intro db env req uid lid did now
  cases hA : db.findAgent req.agent_id with
  | none =>
    constructor
    · intro h; simp [unified_deploy, hA] at h
    · intro hex
      obtain ⟨m, hm⟩ := hex
      simp [unified_deploy, hA, StepRec.mk.injEq] at hm
  | some agent =>
    cases hlic : db.findActiveLicense req.agent_id uid with
    | some lic =>
      have h := rest_spec db env req agent uid lic.id did now
        [⟨"validate_agent", "completed", "Agent '" ++ agent.name ++ "' validated"⟩,
         ⟨"check_license", "completed", "License verified"⟩]
      simp only [unified_deploy, hA, hlic]
      rw [h.1]
      refine ⟨h.2.2.2.1, ?_⟩
      intro hex
      refine h.2.2.2.2 ?_ hex
      intro m hm
      simp [StepRec.mk.injEq] at hm
    | none =>
      by_cases hp : agent.price_cents = 0
      · simp only [unified_deploy, hA, hlic, if_pos hp]
        have h := rest_spec
          (Db.mk db.agents
            (db.licenses ++ [{ id := lid, user_id := uid, agent_id := req.agent_id,
                               status := LicenseStatus.active }])
            db.deployments)
          env req agent uid lid did now
          [⟨"validate_agent", "completed", "Agent '" ++ agent.name ++ "' validated"⟩,
           ⟨"check_license", "completed", "License verified"⟩]
        rw [h.1]
        refine ⟨h.2.2.2.1, ?_⟩
        intro hex
        refine h.2.2.2.2 ?_ hex
        intro m hm
        simp [StepRec.mk.injEq] at hm
      · simp only [unified_deploy, hA, hlic, if_neg hp]
        constructor
        · intro h; simp at h
        · intro hex
          obtain ⟨m, hm⟩ := hex
          simp [StepRec.mk.injEq] at hm

/-- Witness for C1 on a successful concrete deploy. -/
theorem C1_deploy_patches_record_witness :
    ∃ d, (unified_deploy demoDb demoEnv demoReq "u1" "l2" "d1" 0).1.findDeployment
        (unified_deploy demoDb demoEnv demoReq "u1" "l2" "d1" 0).2.deployment_id = some d ∧
      d.status = DeploymentStatus.active ∧ d.error_message = none :=
  ((C1_deploy_patches_record demoDb demoEnv demoReq "u1" "l2" "d1" 0).1 (by decide)).1

/-- C6.  When the requesting user holds no active license: a zero-price
agent gets a free active license minted and the pipeline continues past
`check_license`; a paid agent aborts at `check_license` with the
license-required error and the database is left untouched (no
Deployment row is created). -/
theorem C6_license_gate :
    ∀ (db : Db) (env : UnifiedEnv) (req : UnifiedDeployRequest)
      (uid lid did : String) (now : Nat) (agent : AgentRec),
      db.findAgent req.agent_id = some agent →
      db.findActiveLicense req.agent_id uid = none →
      (agent.price_cents ≠ 0 →
        (unified_deploy db env req uid lid did now).1 = db ∧
        (unified_deploy db env req uid lid did now).2.status = "failed" ∧
        (unified_deploy db env req uid lid did now).2.error
          = some "Please purchase a license first" ∧
        (unified_deploy db env req uid lid did now).2.steps
          = [⟨"validate_agent", "completed", "Agent '" ++ agent.name ++ "' validated"⟩,
             ⟨"check_license", "failed", "Valid license required"⟩]) ∧
      (agent.price_cents = 0 →
        ({ id := lid, user_id := uid, agent_id := req.agent_id,
           status := LicenseStatus.active } : LicenseRec)
            ∈ (unified_deploy db env req uid lid did now).1.licenses ∧
        StepRec.mk "check_license" "completed" "License verified"
            ∈ (unified_deploy db env req uid lid did now).2.steps) := by
  intro db env req uid lid did now agent hA hlic
  constructor
  · intro hp
    simp only [unified_deploy, hA, hlic]
    rw [if_neg hp]
    exact ⟨rfl, rfl, rfl, rfl⟩
  · intro hp
    simp only [unified_deploy, hA, hlic]
    rw [if_pos hp]
    have h := rest_spec
      (Db.mk db.agents
        (db.licenses ++ [{ id := lid, user_id := uid, agent_id := req.agent_id,
                           status := LicenseStatus.active }])
        db.deployments)
      env req agent uid lid did now
      [⟨"validate_agent", "completed", "Agent '" ++ agent.name ++ "' validated"⟩,
       ⟨"check_license", "completed", "License verified"⟩]
    constructor
    · rw [h.2.1]
      simp
    · exact h.2.2.1 _ (by simp)

/-- Witness for C6: the paid branch on a concrete paid agent. -/
theorem C6_license_gate_witness :
    (unified_deploy demoDb demoEnv { agent_id := "a2" } "u1" "l9" "d9" 0).1 = demoDb ∧
    (unified_deploy demoDb demoEnv { agent_id := "a2" } "u1" "l9" "d9" 0).2.status
      = "failed" ∧
    (unified_deploy demoDb demoEnv { agent_id := "a2" } "u1" "l9" "d9" 0).2.error
      = some "Please purchase a license first" ∧
    (unified_deploy demoDb demoEnv { agent_id := "a2" } "u1" "l9" "d9" 0).2.steps
      = [⟨"validate_agent", "completed", "Agent 'Paid' validated"⟩,
         ⟨"check_license", "failed", "Valid license required"⟩] :=
  (C6_license_gate demoDb demoEnv { agent_id := "a2" } "u1" "l9" "d9" 0
    demoPaidAgent (by decide) (by decide)).1 (by decide)

/-! ## Claim C4: the pending → stopped transition -/

/-- C4 counterexample.  The claim — no reachable sequence of public
operations ever moves a deployment directly from `pending` to `stopped`
— is false: a deploy with `auto_start=false` leaves the row `pending`,
and one `stop` call then patches it straight to `stopped` (the endpoint
checks no current state). -/
theorem C4_counterexample_pending_to_stopped :
    ¬ (∀ (init : Db), init.deployments = [] →
        ∀ (pre : List PublicOp) (op : PublicOp) (did : String),
          statusOf (dbAfter init pre) did = some DeploymentStatus.pending →
          statusOf (stepOp (dbAfter init pre) op) did
            ≠ some DeploymentStatus.stopped) := by
  intro h
  exact h demoDb rfl
    [PublicOp.deployOp demoEnv { agent_id := "a1", auto_start := false } "u1" "l2" "d1" 0]
    (PublicOp.stopOp {} "d1" "u1" 1) "d1"
    (by decide) (by decide)

/-- C4 (amended).  `stop_deployment` patches the row to `stopped` with
`stopped_at = now` regardless of its current state — in particular a
`pending` deployment is moved directly to `stopped`, so the forbidden
transition is reachable. -/
theorem C4_stop_patches_stopped_unconditionally :
    ∀ (db : Db) (env : DockerEnv) (did uid : String) (now : Nat),
      (db.findUserDeployment did uid).isSome →
      ∃ d, (stop_deployment db env did uid now).1.findDeployment did = some d ∧
        d.status = DeploymentStatus.stopped ∧ d.stopped_at = some now := by
  intro db env did uid now h
  obtain ⟨dep, hdep⟩ := Option.isSome_iff_exists.mp h
  obtain ⟨d0, hd0⟩ := Option.isSome_iff_exists.mp (findDeployment_isSome_of_user db did uid h)
  simp only [stop_deployment, hdep]
  rw [findDeployment_update]
  · rw [hd0]
    exact ⟨_, rfl, rfl, rfl⟩
  · intro d; rfl

/-- Witness for the amended C4 on a concrete database. -/
theorem C4_stop_patches_stopped_unconditionally_witness :
    ∃ d, (stop_deployment demoDbActive {} "d1" "u1" 3).1.findDeployment "d1" = some d ∧
      d.status = DeploymentStatus.stopped ∧ d.stopped_at = some 3 :=
  C4_stop_patches_stopped_unconditionally demoDbActive {} "d1" "u1" 3 (by decide)

/-! ## Claim C7: determinism of the external identifier -/

/-- C7 counterexample.  The external identifier recorded by
`DockerDeployer.deploy` is the first 12 characters of the stdout that
`docker run` printed — the daemon-assigned container id — so two
invocations with the same `(agent_id, deployment_id)` but different
daemon responses record different external identifiers. -/
theorem C7_counterexample_external_id :
    ¬ (∀ (env env' : DockerEnv) (marketplace_url deployment_id : String)
         (config : DeployConfig) (build_result : BuildResult),
        (DockerDeployer.deploy env marketplace_url deployment_id config
            build_result).1.external_id
          = (DockerDeployer.deploy env' marketplace_url deployment_id config
              build_result).1.external_id) := by
  intro h
  have h2 := h { runRc := 0, runStdout := "aaaaaaaaaaaaaaaa" }
               { runRc := 0, runStdout := "bbbbbbbbbbbbbbbb" }
               "http://host.docker.internal:8000" "d1"
               { agent_id := "a1", agent_name := "Hello", version := "1.0.0" }
               { success := true, image_tag := some "postqode-agent-a1:1.0.0" }
  exact absurd h2 (by decide)

/-- C7 (amended).  The container *name* the deployer passes to
`docker run --name` is the deterministic
`postqode-<agent_id>-<first 8 of deployment_id>` — a function of the
pair alone — while the `external_id` recorded in the `DeployResult` is
the first 12 characters of the stripped `docker run` stdout (the
container id the daemon assigned), which is not a function of the
pair. -/
theorem C7_container_name_deterministic :
    ∀ (env : DockerEnv) (marketplace_url deployment_id : String)
      (config : DeployConfig) (build_result : BuildResult),
      build_result.success = true →
      ((DockerDeployer.deploy env marketplace_url deployment_id config
          build_result).2.get? 3
        = some (dockerContainerName config.agent_id deployment_id)) ∧
      (env.runRc = 0 →
        (DockerDeployer.deploy env marketplace_url deployment_id config
            build_result).1.external_id
          = some ((pyStrip env.runStdout).take 12)) := by
  intro env mu did config br hb
  constructor
  · unfold DockerDeployer.deploy
    rw [if_neg (by simp [hb])]
    dsimp only
    split
    · rfl
    · rfl
  · intro hrc
    unfold DockerDeployer.deploy
    rw [if_neg (by simp [hb])]
    dsimp only
    rw [if_neg (by simp [hrc])]

/-- Witness for the amended C7 at a concrete deploy. -/
theorem C7_container_name_deterministic_witness :
    ((DockerDeployer.deploy { runRc := 0, runStdout := "0123456789abcdef" }
        "http://host.docker.internal:8000" "deadbeef1234"
        { agent_id := "a1", agent_name := "Hello", version := "1.0.0" }
        { success := true, image_tag := some "postqode-agent-a1:1.0.0" }).2.get? 3
      = some "postqode-a1-deadbeef") ∧
    ((DockerDeployer.deploy { runRc := 0, runStdout := "0123456789abcdef" }
        "http://host.docker.internal:8000" "deadbeef1234"
        { agent_id := "a1", agent_name := "Hello", version := "1.0.0" }
        { success := true, image_tag := some "postqode-agent-a1:1.0.0" }).1.external_id
      = some "0123456789ab") :=
  ⟨(C7_container_name_deterministic { runRc := 0, runStdout := "0123456789abcdef" }
      "http://host.docker.internal:8000" "deadbeef1234"
      { agent_id := "a1", agent_name := "Hello", version := "1.0.0" }
      { success := true, image_tag := some "postqode-agent-a1:1.0.0" } rfl).1,
   (C7_container_name_deterministic { runRc := 0, runStdout := "0123456789abcdef" }
      "http://host.docker.internal:8000" "deadbeef1234"
      { agent_id := "a1", agent_name := "Hello", version := "1.0.0" }
      { success := true, image_tag := some "postqode-agent-a1:1.0.0" } rfl).2 rfl⟩

/-! ## Claim C10: a second start on a running container -/

/-- C10.  When the deterministically named container is already running
(`docker ps` reports it), `run_container` refuses with an
"already running" error; `start_deployment` then patches the row to
`error` with that message and raises HTTP 500 — so a second start on an
`active` deployment demotes it to `error` rather than being
idempotent. -/
theorem C10_start_on_running_demotes :
    ∀ (db : Db) (env : UnifiedEnv) (did uid : String) (now : Nat)
      (dep : DeploymentRec) (agent : AgentRec),
      db.findUserDeployment did uid = some dep →
      db.findAgent dep.agent_id = some agent →
      env.dockerAvailable = true →
      pyStrip env.docker.imagesOut ≠ "" →
      pyStrip env.docker.psOut ≠ "" →
      (run_container env.docker did dep.agent_id agent.version
          (dep.adapter_used.getD "openai") dep.env_vars dep.port).success = false ∧
      (run_container env.docker did dep.agent_id agent.version
          (dep.adapter_used.getD "openai") dep.env_vars dep.port).error
        = some ("Container " ++ dockerContainerName dep.agent_id did
            ++ " already running") ∧
      (start_deployment db env did uid now).2
        = Except.error ⟨500, "Container " ++ dockerContainerName dep.agent_id did
            ++ " already running"⟩ ∧
      ∃ d, (start_deployment db env did uid now).1.findDeployment did = some d ∧
        d.status = DeploymentStatus.error ∧
        d.error_message = some ("Container " ++ dockerContainerName dep.agent_id did
          ++ " already running") := by
  intro db env did uid now dep agent hdep hA hdocker himg hps
  have hrun : run_container env.docker did dep.agent_id agent.version
      (dep.adapter_used.getD "openai") dep.env_vars dep.port
      = { success := false,
          error := some ("Container " ++ dockerContainerName dep.agent_id did
            ++ " already running") } := by
    unfold run_container
    rw [if_neg himg, if_pos hps]
  have hstart : start_deployment db env did uid now
      = (db.updateDeployment did (fun d =>
           { d with status := DeploymentStatus.error,
                    error_message := some ("Container "
                      ++ dockerContainerName dep.agent_id did ++ " already running") }),
         Except.error ⟨500, "Container " ++ dockerContainerName dep.agent_id did
           ++ " already running"⟩) := by
    unfold start_deployment
    rw [hdep]
    dsimp only
    rw [hA]
    dsimp only
    rw [if_neg (by simp [hdocker]), hrun]
    rfl
  refine ⟨by rw [hrun], by rw [hrun], by rw [hstart], ?_⟩
  obtain ⟨d0, hd0⟩ := Option.isSome_iff_exists.mp
    (findDeployment_isSome_of_user db did uid (by rw [hdep]; rfl))
  rw [hstart]
  rw [findDeployment_update]
  · rw [hd0]
    exact ⟨_, rfl, rfl, rfl⟩
  · intro d; rfl

/-- Witness for C10: a running container and an active deployment. -/
theorem C10_start_on_running_demotes_witness :
    ∃ d, (start_deployment demoDbActive demoEnvBusy "d1" "u1" 2).1.findDeployment
        "d1" = some d ∧
      d.status = DeploymentStatus.error ∧
      d.error_message = some ("Container " ++ dockerContainerName "a1" "d1"
        ++ " already running") :=
  (C10_start_on_running_demotes demoDbActive demoEnvBusy "d1" "u1" 2
    demoActiveDeployment demoAgent (by decide) (by decide) rfl (by decide)
    (by decide)).2.2.2

end Postqode
